import Mathlib

/-!
# Verification of the aircbot LLM response-quality gate

Shallow embedding, in Lean 4, of the decision logic of the aircbot
repository that the specification's claims are about:

* `src/openai_rate_limiter.py` — the persisted daily quota for the remote
  provider (`can_make_request`, `record_request`, `get_usage_stats`);
* `src/llm_handler.py` — response cleaning and validation
  (`_validate_response_length`), the lexical relevance check
  (`_is_response_relevant` and its helpers), the coherence checker
  (`_has_poor_semantic_coherence`, `_has_excessive_repetition`, ...),
  the fallback predicate (`_is_fallback_response`) and the provider
  orchestration (`_ask_openai`, `_ask_fallback`);
* `src/prompts.py` — the fixed error-message constants.

Strings are modelled as `List Char` (a Python `str` is a sequence of code
points, which is exactly `List Char`); Python string helpers (`split`,
`strip`, `lower`, substring tests, the few regexes the code uses) are
embedded as executable functions below.  Python `float` thresholds from
`config.py` are modelled as exact rationals written as cross-multiplied
naturals (`RatioThreshold`); every comparison the claims exercise is
decided by integer word counts, never by float rounding.  Character
classes (`\w`, `\d`, `str.lower`) are modelled over ASCII, which covers
every string the code and claims manipulate.
-/

namespace Aircbot

/-! ## Python string primitives -/

/-- Python whitespace (`str.split()` / `str.strip()` class, ASCII range). -/
def isPySpace (c : Char) : Bool :=
  c == ' ' || c == '\t' || c == '\n' || c == '\r' || c == '\x0b' || c == '\x0c'

/-- `str.strip()`: drop leading and trailing whitespace. -/
def pyStrip (s : List Char) : List Char :=
  ((s.dropWhile isPySpace).reverse.dropWhile isPySpace).reverse

/-- ASCII case folding of one character (Python `str.lower()` on the
character sets this code manipulates). -/
def pyLowerChar (c : Char) : Char :=
  if 'A' ≤ c && c ≤ 'Z' then Char.ofNat (c.toNat + 32) else c

/-- Python `str.lower()`. -/
def pyLower (s : List Char) : List Char := s.map pyLowerChar

/-- Helper for `pyWords`: accumulate the current word (reversed). -/
def pyWordsAux : List Char → List Char → List (List Char)
  | [], acc => if acc.isEmpty then [] else [acc.reverse]
  | c :: cs, acc =>
    if isPySpace c then
      if acc.isEmpty then pyWordsAux cs [] else acc.reverse :: pyWordsAux cs []
    else pyWordsAux cs (c :: acc)

/-- Python `str.split()` with no argument: split on whitespace runs,
discarding empty pieces. -/
def pyWords (s : List Char) : List (List Char) := pyWordsAux s []

/-- Helper for `splitOnChar`: accumulate the current piece (reversed). -/
def splitOnCharAux (sep : Char) : List Char → List Char → List (List Char)
  | [], acc => [acc.reverse]
  | c :: cs, acc =>
    if c == sep then acc.reverse :: splitOnCharAux sep cs []
    else splitOnCharAux sep cs (c :: acc)

/-- Python `str.split(sep)` for a one-character separator (empty pieces
kept, as Python does). -/
def splitOnChar (sep : Char) (s : List Char) : List (List Char) :=
  splitOnCharAux sep s []

/-- Python `str.replace(old, new)` for one-character arguments. -/
def pyReplaceChar (old new : Char) (s : List Char) : List Char :=
  s.map fun c => if c == old then new else c

/-- Python `needle in haystack` (substring containment; an empty needle is
always contained). -/
def hasSub (pat : List Char) : List Char → Bool
  | [] => pat.isEmpty
  | c :: cs => pat.isPrefixOf (c :: cs) || hasSub pat cs

/-- Python `str.startswith(p)`. -/
def pyStartsWith (p s : List Char) : Bool := p.isPrefixOf s

/-- Python `str.endswith(p)`. -/
def pyEndsWith (p s : List Char) : Bool := p.isSuffixOf s

/-- Python `' '.join(pieces)`. -/
def joinSpace : List (List Char) → List Char
  | [] => []
  | [w] => w
  | w :: ws => w ++ ' ' :: joinSpace ws

/-- Count occurrences of one character (Python `str.count(c)`). -/
def countChar (c : Char) (s : List Char) : Nat := s.countP (· == c)

/-- ASCII decimal digit (`\d` on the strings this code sees). -/
def isAsciiDigit (c : Char) : Bool := '0' ≤ c && c ≤ '9'

/-- `\w` word character (`[A-Za-z0-9_]` on the strings this code sees). -/
def isWordChar (c : Char) : Bool :=
  ('a' ≤ c && c ≤ 'z') || ('A' ≤ c && c ≤ 'Z') || isAsciiDigit c || c == '_'

/-! ## `src/prompts.py` — fixed error messages (`get_error_messages`) -/

def llmUnavailableMsg : List Char := "❌ LLM is not available".data
def tooComplexMsg : List Char := "That's too complicated to answer here".data
def noResponseMsg : List Char := "I'm not sure how to respond to that.".data
def openaiLimitMsg : List Char :=
  "🚫 Daily OpenAI usage limit reached. Try again tomorrow or ask something simpler for local AI.".data

/-! ## `src/openai_rate_limiter.py` — daily quota

The `openai_usage` table maps a date string to an integer count with a
uniqueness constraint on the date; it is modelled as an association list.
-/

/-- The persisted `openai_usage` table: one row per date string. -/
def QuotaStore := List (List Char × Nat)

/-- `_get_today_usage`: the count stored for `today`, 0 when absent. -/
def getTodayUsage : QuotaStore → List Char → Nat
  | [], _ => 0
  | (d, n) :: rest, today => if d = today then n else getTodayUsage rest today

/-- The single-row upsert performed by `_increment_usage`'s
`INSERT OR REPLACE ... COALESCE(...) + 1` statement. -/
def setUsage : QuotaStore → List Char → Nat → QuotaStore
  | [], today, n => [(today, n)]
  | (d, v) :: rest, today, n =>
    if d = today then (today, n) :: rest else (d, v) :: setUsage rest today n

/-- `_increment_usage` (and hence `record_request`). -/
def incrementUsage (store : QuotaStore) (today : List Char) : QuotaStore :=
  setUsage store today (getTodayUsage store today + 1)

/-- `can_make_request`: `daily_limit <= 0` means unlimited, otherwise
today's usage must be strictly below the limit. -/
def canMakeRequest (dailyLimit : Int) (store : QuotaStore) (today : List Char) : Bool :=
  if dailyLimit ≤ 0 then true
  else (getTodayUsage store today : Int) < dailyLimit

/-- The `remaining` field of `get_usage_stats`: `max(0, limit - usage)`
when a positive limit is configured, the `"unlimited"` marker (`none`)
otherwise. -/
def usageRemaining (dailyLimit : Int) (store : QuotaStore) (today : List Char) : Option Int :=
  if dailyLimit > 0 then some (max 0 (dailyLimit - getTodayUsage store today)) else none

theorem getTodayUsage_setUsage (store : QuotaStore) (today : List Char) (n : Nat) :
    getTodayUsage (setUsage store today n) today = n := by
  induction store with
  | nil => simp [setUsage, getTodayUsage]
  | cons hd tl ih =>
    obtain ⟨d, v⟩ := hd
    by_cases h : d = today <;> simp [setUsage, getTodayUsage, h, ih]

theorem getTodayUsage_incrementUsage (store : QuotaStore) (today : List Char) :
    getTodayUsage (incrementUsage store today) today = getTodayUsage store today + 1 := by
  simp [incrementUsage, getTodayUsage_setUsage]

/-! ## `_validate_response_length` — cleaning and validation

Step 1 is `re.sub(r'<think>.*?</think>', '', response, flags=re.DOTALL)`;
step 2 truncates at a remaining unclosed `<think>`; step 3 is
`re.sub(r'</?think[^>]*>', '', ..., flags=re.IGNORECASE)`; step 4 strips
whitespace.
-/

theorem length_dropWhile_le' (p : Char → Bool) (l : List Char) :
    (l.dropWhile p).length ≤ l.length := by
  induction l with
  | nil => simp
  | cons c cs ih =>
    by_cases h : p c
    · simp only [List.dropWhile, h]
      exact Nat.le_succ_of_le ih
    · simp [List.dropWhile, h]

/-- Split at the first occurrence of `pat`: `some (before, after)` with
`s = before ++ pat ++ after` and `before` minimal, `none` when `pat` does
not occur. -/
def breakAtSub (pat : List Char) : List Char → Option (List Char × List Char)
  | [] => if pat.isEmpty then some ([], []) else none
  | c :: cs =>
    if pat.isPrefixOf (c :: cs) then some ([], (c :: cs).drop pat.length)
    else
      match breakAtSub pat cs with
      | some (b, a) => some (c :: b, a)
      | none => none

theorem breakAtSub_eq (pat : List Char) :
    ∀ s b a, breakAtSub pat s = some (b, a) → s = b ++ pat ++ a := by
  intro s
  induction s with
  | nil =>
    intro b a h
    simp only [breakAtSub] at h
    split at h
    · rename_i hp
      simp only [Option.some.injEq, Prod.mk.injEq] at h
      obtain ⟨hb, ha⟩ := h
      subst hb; subst ha
      simp_all [List.isEmpty_iff]
    · exact absurd h (by simp)
  | cons c cs ih =>
    intro b a h
    simp only [breakAtSub] at h
    split at h
    · rename_i hp
      rw [List.isPrefixOf_iff_prefix] at hp
      obtain ⟨t, ht⟩ := hp
      simp only [Option.some.injEq, Prod.mk.injEq] at h
      obtain ⟨hb, ha⟩ := h
      subst hb
      rw [← ht, ← ha, ← ht]
      simp [List.drop_left]
    · revert h
      match hrec : breakAtSub pat cs with
      | some (b', a') =>
        intro h
        simp only [Option.some.injEq, Prod.mk.injEq] at h
        obtain ⟨hb, ha⟩ := h
        have := ih b' a' hrec
        subst ha
        rw [← hb, this]
        simp
      | none => intro h; exact absurd h (by simp)

theorem breakAtSub_length (pat : List Char) (hpat : pat ≠ [])
    {s b a : List Char} (h : breakAtSub pat s = some (b, a)) :
    a.length < s.length := by
  have := breakAtSub_eq pat s b a h
  subst this
  have : 0 < pat.length := List.length_pos.mpr hpat
  simp [List.length_append]
  omega

/-- The meta-reasoning open sentinel. -/
def openTag : List Char := "<think>".data

/-- The meta-reasoning close sentinel. -/
def closeTag : List Char := "</think>".data

/-- Cleaning step 1, with explicit fuel so that the definition is
structurally recursive and evaluates in the kernel.  Each removed block
consumes at least one character (`breakAtSub_length`), so fuel equal to
the string length never runs out; at fuel 0 the string is empty and the
0-branch returns it exactly as the `none` branch would. -/
def stripClosedThinkF : Nat → List Char → List Char
  | 0, s => s
  | fuel + 1, s =>
    match breakAtSub openTag s with
    | none => s
    | some (before, afterOpen) =>
      match breakAtSub closeTag afterOpen with
      | none => s
      | some (_, afterClose) => before ++ stripClosedThinkF fuel afterClose

/-- Cleaning step 1: remove every (non-overlapping, leftmost, shortest)
`<think>...</think>` block, exactly as `re.sub(r'<think>.*?</think>', '')`
does. -/
def stripClosedThink (s : List Char) : List Char := stripClosedThinkF s.length s

/-- Cleaning step 2: if an unclosed `<think>` remains, keep only the text
before it (`clean_response.split('<think>')[0]`). -/
def truncAtOpen (s : List Char) : List Char :=
  match breakAtSub openTag s with
  | none => s
  | some (before, _) => before

/-- The optional `/` of the `</?think[^>]*>` artifact pattern. -/
def afterSlash : List Char → List Char
  | '/' :: r => r
  | r => r

theorem afterSlash_length_le (l : List Char) : (afterSlash l).length ≤ l.length := by
  match l with
  | [] => simp [afterSlash]
  | c :: r =>
    by_cases h : c = '/'
    · subst h; simp [afterSlash]
    · have : afterSlash (c :: r) = c :: r := by
        unfold afterSlash
        split
        · rename_i heq
          cases heq
          simp_all
        · rfl
      simp [this]

/-- The `[^>]*>` tail of the artifact pattern: greedily skip to the next
`>`; fail when the string ends first. -/
def closeArtifact (l : List Char) : Option (List Char) :=
  match l.dropWhile (fun c => !(c == '>')) with
  | '>' :: r => some r
  | _ => none

theorem closeArtifact_length {l r : List Char} (h : closeArtifact l = some r) :
    r.length < l.length := by
  have hle := length_dropWhile_le' (fun c => !(c == '>')) l
  unfold closeArtifact at h
  split at h
  · rename_i r' heq
    simp only [Option.some.injEq] at h
    subst h
    rw [heq] at hle
    simp only [List.length_cons] at hle
    omega
  · exact absurd h (by simp)

/-- One attempt to match `</?think[^>]*>` (case-insensitive) at the head
of the string; returns the remainder after the match. -/
def matchThinkArtifact : List Char → Option (List Char)
  | '<' :: rest =>
    let rest1 := afterSlash rest
    if (rest1.take 5).map pyLowerChar = "think".data then closeArtifact (rest1.drop 5)
    else none
  | _ => none

theorem matchThinkArtifact_length {s r : List Char} (h : matchThinkArtifact s = some r) :
    r.length < s.length := by
  match s with
  | [] => exact absurd h (by simp [matchThinkArtifact])
  | c :: rest =>
    by_cases hc : c = '<'
    · subst hc
      simp only [matchThinkArtifact] at h
      split at h
      · rename_i hthink
        have h1 := closeArtifact_length h
        have h2 : ((afterSlash rest).drop 5).length ≤ (afterSlash rest).length := by
          rw [List.length_drop]; omega
        have h3 := afterSlash_length_le rest
        simp only [List.length_cons]
        omega
      · exact absurd h (by simp)
    · have : matchThinkArtifact (c :: rest) = none := by
        unfold matchThinkArtifact
        split
        · rename_i heq
          cases heq
          exact absurd rfl hc
        · rfl
      rw [this] at h
      exact absurd h (by simp)

/-- Cleaning step 3, with fuel for structural recursion: a match consumes
at least one character (`matchThinkArtifact_length`), so fuel equal to the
string length never runs out. -/
def stripArtifactsF : Nat → List Char → List Char
  | _, [] => []
  | 0, s => s
  | fuel + 1, c :: cs =>
    match matchThinkArtifact (c :: cs) with
    | some rest => stripArtifactsF fuel rest
    | none => c :: stripArtifactsF fuel cs

/-- Cleaning step 3: remove every remaining `</?think[^>]*>` artifact,
scanning left to right as `re.sub` does. -/
def stripArtifacts (s : List Char) : List Char := stripArtifactsF s.length s

/-- The full cleaning stage of `_validate_response_length` (steps 1–4):
closed-pair removal, truncation at an unclosed open marker, artifact
removal, whitespace trim. -/
def cleanResponse (response : List Char) : List Char :=
  pyStrip (stripArtifacts (truncAtOpen (stripClosedThink response)))

/-- Counts `.` characters not immediately preceded by a digit — the
`(?<!\d)\.` regex; `prev` is the preceding character, if any. -/
def countPeriodsAux : Option Char → List Char → Nat
  | _, [] => 0
  | prev, c :: cs =>
    (if c == '.' && !(prev.elim false isAsciiDigit) then 1 else 0) + countPeriodsAux (some c) cs

/-- `len(re.findall(r'(?<!\d)\.', clean_response))`. -/
def countPeriodsNotAfterDigit (s : List Char) : Nat := countPeriodsAux none s

/-- Sentence terminators: non-digit-preceded periods plus `!` and `?`. -/
def countSentenceEndings (s : List Char) : Nat :=
  countPeriodsNotAfterDigit s + countChar '!' s + countChar '?' s

/-- `re.findall(r'\d+\.', ...)` counting, with fuel for structural
recursion: every recursive call drops at least one character, so fuel
equal to the string length never runs out. -/
def countNumberedItemsF : Nat → List Char → Nat
  | _, [] => 0
  | 0, _ => 0
  | fuel + 1, c :: cs =>
    if isAsciiDigit c then
      match cs.dropWhile isAsciiDigit with
      | '.' :: rest => countNumberedItemsF fuel rest + 1
      | _ => countNumberedItemsF fuel cs
    else countNumberedItemsF fuel cs

/-- `len(re.findall(r'\d+\.', clean_response))`: non-overlapping maximal
digit runs immediately followed by a period. -/
def countNumberedItems (s : List Char) : Nat := countNumberedItemsF s.length s

/-- The academic connective words of the strict complexity check. -/
def academicWords : List (List Char) :=
  ["however".data, "furthermore".data, "moreover".data, "specifically".data,
   "particularly".data]

/-- The strict-mode complexity indicators of `_validate_response_length`. -/
def strictComplexityIndicator (clean : List Char) : Bool :=
  decide (countChar '\n' clean > 2)
  || (decide (countNumberedItems clean > 5) || decide (countChar '•' clean > 5))
  || decide (countChar ':' clean > 3)
  || academicWords.any (fun w => hasSub w (pyLower clean))

/-- The lenient-mode complexity indicators of `_validate_response_length`. -/
def lenientComplexityIndicator (clean : List Char) : Bool :=
  decide (countChar '\n' clean > 4)
  || (decide (countNumberedItems clean > 8) || decide (countChar '•' clean > 8))
  || decide (countChar ':' clean > 5)

/-- `_validate_response_length(response, strict)`: clean, reject empty as
`no_response`, reject over-budget or complex responses as `too_complex`,
otherwise return the cleaned text. -/
def validateResponseLength (response : List Char) (strict : Bool) : List Char :=
  let clean := cleanResponse response
  if clean.isEmpty then noResponseMsg
  else
    let sentenceEndings := countSentenceEndings clean
    let maxSentences := if strict then 3 else 5
    let maxChars := if strict then 400 else 600
    if sentenceEndings > maxSentences || clean.length > maxChars then tooComplexMsg
    else if (if strict then strictComplexityIndicator clean else lenientComplexityIndicator clean)
      then tooComplexMsg
    else clean

/-! ## `_is_response_relevant` — lexical relevance

The source compares the Python float `keyword_matches / len(question_words)`
against small decimal thresholds (0.05, 0.1, 0.3).  The comparisons are
modelled exactly on rationals written as cross-multiplied naturals; at
these magnitudes and integer counts the float comparison and the exact
one agree (they could differ only within one double ulp of the
threshold, which integer ratios with denominators this small never hit).
-/

/-- A configured ratio threshold `num / den` (`den` positive). -/
structure RatioThreshold where
  num : Nat
  den : Nat

/-- Exact form of `a / b < num / den` for a positive `b`. -/
def ratioLt (a b : Nat) (t : RatioThreshold) : Bool := decide (a * t.den < t.num * b)

/-- Exact form of `a / b > num / den` for a positive `b`. -/
def ratioGt (a b : Nat) (t : RatioThreshold) : Bool := decide (t.num * b < a * t.den)

/-- The configuration fields of `config.py` this core consults, with the
source's default values. -/
structure Config where
  fallbackMinResponseLength : Nat := 3
  fallbackDontKnowContextMinWords : Nat := 15
  fallbackRelevanceMinRatio : RatioThreshold := ⟨1, 20⟩
  fallbackRelevanceMinQuestionWords : Nat := 3
  fallbackTypeMismatchMinRatio : RatioThreshold := ⟨1, 10⟩
  fallbackTypeMismatchMinQuestionWords : Nat := 5
  fallbackGenericResponseMaxWords : Nat := 25
  fallbackRepetitionMaxWordRatio : RatioThreshold := ⟨3, 10⟩
  fallbackRepetitionMinWordLength : Nat := 3
  fallbackExplanationMinWords : Nat := 8
  fallbackProceduralShortAnswerMaxWords : Nat := 15
  fallbackCodeShortAnswerMaxWords : Nat := 10

/-- The default configuration. -/
def defaultConfig : Config := {}

/-- The stop-word set of `_is_response_relevant`. -/
def stopWords : List (List Char) :=
  ["the".data, "a".data, "an".data, "and".data, "or".data, "but".data, "in".data,
   "on".data, "at".data, "to".data, "for".data, "of".data, "with".data, "by".data,
   "how".data, "what".data, "when".data, "where".data, "why".data, "is".data,
   "are".data, "was".data, "were".data, "do".data, "does".data, "did".data,
   "can".data, "could".data, "should".data, "would".data, "will".data]

/-- `re.sub(r'[^\w]', '', word)`: keep only word characters. -/
def cleanWord (w : List Char) : List Char := w.filter isWordChar

/-- The meaningful question keywords: each whitespace word of the
(lowercased) question, punctuation-stripped, kept when at least 3
characters long and not a stop word.  (The source's list comprehension
filters on the cleaned word and yields the cleaned word; this is the same
map-then-filter.) -/
def questionKeywords (questionLower : List Char) : List (List Char) :=
  ((pyWords questionLower).map cleanWord).filter
    (fun c => decide (3 ≤ c.length) && !(stopWords.contains c))

/-- The question classification of `_identify_question_type`. -/
inductive QType
  | explanation
  | code
  | procedural
  | reasoning
  | general
deriving DecidableEq

/-- `_identify_question_type` (substring sniffing on the lowercased
question). -/
def identifyQuestionType (question : List Char) : QType :=
  if ["how".data, "explain".data, "describe".data, "what is".data,
      "what does".data].any (fun w => hasSub w question) then .explanation
  else if ["code".data, "implement".data, "write".data, "create".data,
      "build".data].any (fun w => hasSub w question) then .code
  else if ["list".data, "steps".data, "process".data,
      "procedure".data].any (fun w => hasSub w question) then .procedural
  else if ["why".data, "reason".data, "because".data].any
      (fun w => hasSub w question) then .reasoning
  else .general

/-- The code-ish tokens `_response_matches_question_type` accepts for a
code question. -/
def codeIndicators : List (List Char) :=
  ["```".data, "def ".data, "function".data, "class ".data, "import ".data,
   "return".data, "\x7b".data, "\x7d".data, "()".data, "def(".data, "print(".data,
   "for ".data, "while ".data, "if ".data, "loop".data, "select".data,
   "update".data, "insert".data, "delete".data, "var ".data, "let ".data,
   "const ".data, "=".data, "git ".data, "npm ".data, "pip ".data, "docker".data,
   "kubectl".data, "mysql".data, "postgres".data, "redis".data, "api".data,
   "json".data, "xml".data, "http".data, "https".data, "tcp".data, "udp".data,
   "ssh".data, "ftp".data]

/-- The step/sequence markers `_response_matches_question_type` accepts
for a procedural question. -/
def proceduralIndicators : List (List Char) :=
  ["1.".data, "2.".data, "first".data, "second".data, "then".data, "next".data,
   "step".data, "process".data, "install".data, "configure".data, "setup".data,
   "run".data, "execute".data, "deploy".data, "build".data, "test".data,
   "check".data, "verify".data]

/-- `_response_matches_question_type` on the lowercased response. -/
def responseMatchesQuestionType (cfg : Config) (qt : QType) (response : List Char) : Bool :=
  match qt with
  | .code =>
    codeIndicators.any (fun w => hasSub w response)
      || decide ((pyWords response).length < cfg.fallbackCodeShortAnswerMaxWords)
  | .procedural =>
    proceduralIndicators.any (fun w => hasSub w response)
      || decide ((pyWords response).length < cfg.fallbackProceduralShortAnswerMaxWords)
  | .explanation => decide ((pyWords response).length > cfg.fallbackExplanationMinWords)
  | _ => true

/-- The template openers of `_is_generic_response`. -/
def genericPatterns : List (List Char) :=
  ["i'd be happy to help".data, "here's some information".data,
   "let me help you with that".data, "that's a great question".data,
   "i understand you're asking about".data, "this is a common question".data]

/-- `_is_generic_response`: a generic opener within the first 100
characters, with a short overall response. -/
def isGenericResponse (cfg : Config) (response : List Char) : Bool :=
  let responseStart := pyLower (response.take 100)
  if genericPatterns.any (fun p => hasSub p responseStart) then
    decide ((pyWords response).length < cfg.fallbackGenericResponseMaxWords)
  else false

/-- `_is_response_relevant(question, response)`. -/
def isResponseRelevant (cfg : Config) (question response : List Char) : Bool :=
  if question.isEmpty || response.isEmpty then false
  else
    let questionLower := pyLower question
    let responseLower := pyLower response
    let questionWords := questionKeywords questionLower
    let keywordMatches := (questionWords.filter (fun w => hasSub w responseLower)).length
    if questionWords.isEmpty then true
    else if ratioLt keywordMatches questionWords.length cfg.fallbackRelevanceMinRatio
        && decide (questionWords.length > cfg.fallbackRelevanceMinQuestionWords) then false
    else if !responseMatchesQuestionType cfg (identifyQuestionType questionLower) responseLower
        && ratioLt keywordMatches questionWords.length cfg.fallbackTypeMismatchMinRatio
        && decide (questionWords.length > cfg.fallbackTypeMismatchMinQuestionWords) then false
    else if isGenericResponse cfg responseLower
        && decide ((pyWords response).length < cfg.fallbackGenericResponseMaxWords) then false
    else true

/-! ## `_has_poor_semantic_coherence` — coherence checker -/

/-- The enumerator-exception words of the triple-repetition check. -/
def enumeratorWords : List (List Char) :=
  ["example".data, "option".data, "step".data, "item".data, "point".data]

/-- `max(word_counts.values())`: the largest multiplicity in a word list
(0 when empty; the source only evaluates it on a non-empty dictionary). -/
def maxMultiplicity (l : List (List Char)) : Nat :=
  (l.map (fun w => l.count w)).foldr max 0

/-- Repetition check (a): some word longer than 3 characters makes up more
than the configured fraction of all meaningful words. -/
def wordRatioCheck (cfg : Config) (words : List (List Char)) : Bool :=
  let meaningful := words.filter (fun w => decide (w.length > 3))
  decide (meaningful.length > 0)
    && ratioGt (maxMultiplicity meaningful) meaningful.length cfg.fallbackRepetitionMaxWordRatio

/-- Repetition check (b): some 3-word phrase reoccurs (as a substring)
in the words after it. -/
def phraseRepetitionCheck (words : List (List Char)) : Bool :=
  (List.range (words.length - 5)).any fun i =>
    hasSub (joinSpace ((words.drop i).take 3)) (joinSpace (words.drop (i + 3)))

/-- Repetition check (c): some word longer than the configured minimum is
immediately repeated three times in a row and is not an enumerator word. -/
def tripleRepetitionCheck (cfg : Config) : List (List Char) → Bool
  | w1 :: w2 :: w3 :: rest =>
    (w1 == w2 && w2 == w3 && decide (w1.length > cfg.fallbackRepetitionMinWordLength)
      && !(enumeratorWords.any (fun e => hasSub e w1)))
    || tripleRepetitionCheck cfg (w2 :: w3 :: rest)
  | _ => false

/-- `_has_excessive_repetition`: responses of fewer than 10 words are
never flagged; otherwise checks (a), (b), (c) in order (each `return
True` is a disjunct). -/
def hasExcessiveRepetition (cfg : Config) (response : List Char) : Bool :=
  let words := pyWords (pyLower response)
  if words.length < 10 then false
  else
    wordRatioCheck cfg words
    || phraseRepetitionCheck words
    || tripleRepetitionCheck cfg words

/-- The dangling function words of `_has_broken_structure` (with their
leading space, as `str.endswith` receives them). -/
def danglingEndings : List (List Char) :=
  [" the".data, " a".data, " an".data, " and".data, " or".data, " but".data,
   " with".data, " for".data, " to".data, " of".data]

/-- The conjunctions `_has_broken_structure` rejects at sentence start. -/
def openingConjunctions : List (List Char) :=
  ["and".data, "but".data, "or".data, "because".data, "so".data, "then".data]

/-- One iteration of the `_has_broken_structure` loop (`continue`
branches are `false`). -/
def brokenSentence (numSentences : Nat) (sentence : List Char) : Bool :=
  if (pyStrip sentence).length < 3 then false
  else
    let words := pyWords sentence
    if words.length < 3 then false
    else
      danglingEndings.any (fun e => pyEndsWith e sentence)
      || (openingConjunctions.contains (pyLower (words.headD []))
          && decide (numSentences < 3))

/-- `_has_broken_structure`. -/
def hasBrokenStructure (sentences : List (List Char)) : Bool :=
  sentences.any (brokenSentence sentences.length)

/-- The positive/negative term pairs of `_has_logical_inconsistencies`. -/
def contradictionPairs : List (List (List Char) × List (List Char)) :=
  [(["can".data, "able".data, "possible".data],
    ["cannot".data, "unable".data, "impossible".data]),
   (["is".data, "are".data, "does".data],
    ["is not".data, "are not".data, "does not".data, "isn't".data,
     "aren't".data, "doesn't".data]),
   (["always".data, "never".data], ["sometimes".data, "maybe".data, "might".data]),
   (["yes".data, "true".data, "correct".data],
    ["no".data, "false".data, "incorrect".data, "wrong".data])]

/-- `_has_logical_inconsistencies`: a positive and its paired negative
term both occur (as substrings) in a response of fewer than 50 words. -/
def hasLogicalInconsistencies (sentences : List (List Char)) : Bool :=
  let responseLower := pyLower (joinSpace sentences)
  contradictionPairs.any fun p =>
    p.1.any (fun t => hasSub t responseLower)
    && p.2.any (fun t => hasSub t responseLower)
    && decide ((pyWords responseLower).length < 50)

/-- The sentence list used by the coherence checker: split on `.` after
mapping `!` and `?` to `.`, strip each piece, keep non-empty pieces. -/
def sentenceSplit (response : List Char) : List (List Char) :=
  ((splitOnChar '.' (pyReplaceChar '?' '.' (pyReplaceChar '!' '.' response))).map
    pyStrip).filter (fun s => !s.isEmpty)

/-- `_has_poor_semantic_coherence`. -/
def hasPoorSemanticCoherence (cfg : Config) (response : List Char) : Bool :=
  if response.isEmpty then true
  else if hasExcessiveRepetition cfg response then true
  else
    let sentences := sentenceSplit response
    if sentences.length < 2 then false
    else if hasBrokenStructure sentences then true
    else if hasLogicalInconsistencies sentences then true
    else false

/-- C9 counterexample.  `"well well well"` is an immediate triple
repetition of a 4-letter non-enumerator word, yet `hasPoorCoherence`
returns false: the repetition check exits early on responses of fewer
than 10 words, and a single sentence is never coherence-checked. -/
theorem triple_repetition_short_response_not_flagged :
    tripleRepetitionCheck defaultConfig (pyWords (pyLower "well well well".data)) = true
    ∧ hasPoorSemanticCoherence defaultConfig "well well well".data = false := by
  refine ⟨by decide, by decide⟩

/-- C9 amended.  A response of at least 10 words containing an immediate
triple repetition of a non-enumerator word longer than the configured
minimum is flagged as poor coherence; and the enumeration-shaped response
`"Example 1: ... Example 2: ... Example 3: ..."` is not flagged. -/
theorem triple_repetition_flagged_in_long_responses (response : List Char)
    (hlen : 10 ≤ (pyWords (pyLower response)).length)
    (htriple : tripleRepetitionCheck defaultConfig (pyWords (pyLower response)) = true) :
    hasPoorSemanticCoherence defaultConfig response = true
    ∧ hasPoorSemanticCoherence defaultConfig
        ("Example 1: install docker today. Example 2: configure nginx carefully. " ++
         "Example 3: deploy kubernetes clusters.").data = false := by
  constructor
  · have hrep : hasExcessiveRepetition defaultConfig response = true := by
      rw [hasExcessiveRepetition]
      simp only [if_neg (by omega : ¬ (pyWords (pyLower response)).length < 10)]
      simp [htriple]
    have hne : response.isEmpty = false := by
      cases hr : response.isEmpty
      · rfl
      · rw [List.isEmpty_iff] at hr
        subst hr
        simp [pyLower, pyWords, pyWordsAux] at hlen
    rw [hasPoorSemanticCoherence]
    simp [hne, hrep]
  · decide

/-- Witness for C9 amended, at an 11-word response tripling `"really"`. -/
theorem triple_repetition_flagged_witness :
    hasPoorSemanticCoherence defaultConfig
      "really really really good stuff here for you my friend today".data = true
    ∧ hasPoorSemanticCoherence defaultConfig
        ("Example 1: install docker today. Example 2: configure nginx carefully. " ++
         "Example 3: deploy kubernetes clusters.").data = false :=
  triple_repetition_flagged_in_long_responses
    "really really really good stuff here for you my friend today".data
    (by decide) (by decide)

/-- C7 counterexample.  The short-question exemption does not cover the
generic-template branch: the 3-word question `"tell me about"` shares the
keyword `"tell"` with the response
`"I'd be happy to help you tell things"`, yet the response is marked
irrelevant because it opens with a generic template and is shorter than
25 words. -/
theorem short_question_with_overlap_marked_irrelevant :
    (pyWords "tell me about".data).length ≤ 3
    ∧ 1 ≤ ((questionKeywords (pyLower "tell me about".data)).filter
        (fun w => hasSub w (pyLower "I'd be happy to help you tell things".data))).length
    ∧ isResponseRelevant defaultConfig "tell me about".data
        "I'd be happy to help you tell things".data = false := by
  refine ⟨by decide, by decide, by decide⟩

/-- C7 amended.  For a question of at most 3 words (as the code tokenizes
it) sharing at least one meaningful keyword with the response, the
ratio-based and type-mismatch relevance checks never fire; the response
is marked irrelevant only via the generic-template branch, so whenever
that branch does not fire the response is deemed relevant. -/
theorem short_question_with_keyword_overlap_relevant_unless_generic
    (question response : List Char)
    (hq3 : (pyWords (pyLower question)).length ≤ 3)
    (hmatch : 1 ≤ ((questionKeywords (pyLower question)).filter
        (fun w => hasSub w (pyLower response))).length)
    (hgen : (isGenericResponse defaultConfig (pyLower response)
        && decide ((pyWords response).length
            < defaultConfig.fallbackGenericResponseMaxWords)) = false) :
    isResponseRelevant defaultConfig question response = true := by
  have hkw_ne : questionKeywords (pyLower question) ≠ [] := by
    intro h
    rw [h] at hmatch
    simp at hmatch
  have hq_ne : question ≠ [] := by
    intro h
    subst h
    exact hkw_ne rfl
  have hr_ne : response ≠ [] := by
    intro h
    subst h
    have hpos : 0 < ((questionKeywords (pyLower question)).filter
        (fun w => hasSub w (pyLower ([] : List Char)))).length := hmatch
    rw [List.length_pos] at hpos
    obtain ⟨w, hw⟩ := List.exists_mem_of_ne_nil _ hpos
    rw [List.mem_filter] at hw
    obtain ⟨hw1, hw2⟩ := hw
    rw [questionKeywords, List.mem_filter] at hw1
    have hw3 : decide (3 ≤ w.length) = true := by
      have := hw1.2
      revert this
      cases decide (3 ≤ w.length) <;> simp
    rw [decide_eq_true_iff] at hw3
    have : hasSub w (pyLower []) = w.isEmpty := rfl
    rw [this] at hw2
    rw [List.isEmpty_iff] at hw2
    subst hw2
    simp at hw3
  have hlen : (questionKeywords (pyLower question)).length ≤ 3 := by
    calc (questionKeywords (pyLower question)).length
        ≤ ((pyWords (pyLower question)).map cleanWord).length :=
          List.length_filter_le _ _
      _ = (pyWords (pyLower question)).length := List.length_map _ _
      _ ≤ 3 := hq3
  have h1 : question.isEmpty = false := by simpa [List.isEmpty_iff] using hq_ne
  have h2 : response.isEmpty = false := by simpa [List.isEmpty_iff] using hr_ne
  rw [isResponseRelevant]
  simp only [h1, h2, Bool.or_self, Bool.false_eq_true, if_false]
  have hg1 : decide ((questionKeywords (pyLower question)).length
      > defaultConfig.fallbackRelevanceMinQuestionWords) = false := by
    simp only [decide_eq_false_iff_not, not_lt]
    exact hlen
  have hg2 : decide ((questionKeywords (pyLower question)).length
      > defaultConfig.fallbackTypeMismatchMinQuestionWords) = false := by
    have hd : defaultConfig.fallbackTypeMismatchMinQuestionWords = 5 := rfl
    simp only [decide_eq_false_iff_not, not_lt, hd]
    omega
  simp [hg1, hg2, hgen]

/-- Witness for C7 amended: the question `"what is rust"` (3 words, one
keyword `"rust"`) with a non-generic answer is deemed relevant. -/
theorem short_question_keyword_overlap_witness :
    isResponseRelevant defaultConfig "what is rust".data
      "Rust is a systems programming language.".data = true :=
  short_question_with_keyword_overlap_relevant_unless_generic
    "what is rust".data "Rust is a systems programming language.".data
    (by decide) (by decide) (by decide)

/-- C10. A non-empty question from which no meaningful keyword can be
extracted (every whitespace word, once punctuation-stripped, is shorter
than 3 characters or a stop word) makes the lexical relevance check
return true for every non-empty response: relevance is assumed when it
cannot be measured. -/
theorem keyword_free_question_always_relevant (cfg : Config)
    (question response : List Char)
    (hq : question ≠ []) (hr : response ≠ [])
    (hwords : ∀ w ∈ pyWords (pyLower question),
      (cleanWord w).length < 3 ∨ cleanWord w ∈ stopWords) :
    isResponseRelevant cfg question response = true := by
  have hkw : questionKeywords (pyLower question) = [] := by
    rw [questionKeywords, List.filter_eq_nil_iff]
    intro c hc
    rw [List.mem_map] at hc
    obtain ⟨w, hw, hcw⟩ := hc
    subst hcw
    rcases hwords w hw with h | h
    · simp [Nat.not_le.mpr h]
    · simp [h]
  have h1 : question.isEmpty = false := by simpa [List.isEmpty_iff] using hq
  have h2 : response.isEmpty = false := by simpa [List.isEmpty_iff] using hr
  rw [isResponseRelevant]
  simp [h1, h2, hkw]

/-- Witness for C10: the question `"is it?"` has only stop words and
short words, so any response — here `"yes"` — is deemed relevant. -/
theorem keyword_free_question_witness :
    isResponseRelevant defaultConfig "is it?".data "yes".data = true :=
  keyword_free_question_always_relevant defaultConfig "is it?".data "yes".data
    (by decide) (by decide) (by decide)

/-! ## `_is_fallback_response` — the fallback decision predicate

The semantic scorer (`SEMANTIC_SIMILARITY_ENABLED and
semantic_scorer.is_available() and should_fallback(...)`) is an external
collaborator (an embedding model); it is abstracted as the boolean oracle
`semanticTriggers`.
-/

/-- The "don't know" opener patterns of `_is_fallback_response`. -/
def dontKnowPatterns : List (List Char) :=
  ["i don't know".data, "i'm not sure".data, "i can't help".data,
   "i don't have information".data, "sorry, i don't".data, "i'm unable to".data,
   "i cannot provide".data]

/-- `_is_fallback_response(response, question, context)`: true when the
local response warrants escalating to the remote provider. -/
def isFallbackResponse (cfg : Config) (semanticTriggers : Bool)
    (response question : List Char) : Bool :=
  if response.isEmpty then true
  else if question.isEmpty || (pyStrip question).isEmpty then true
  else if [llmUnavailableMsg, noResponseMsg, tooComplexMsg].any
      (fun e => hasSub e response) then true
  else if (pyStrip response).length < cfg.fallbackMinResponseLength then true
  else
    let responseLower := pyLower response
    if dontKnowPatterns.any (fun p => hasSub p responseLower) then
      if (pyWords response).length > cfg.fallbackDontKnowContextMinWords then false
      else if !(dontKnowPatterns.any (fun p => pyStartsWith p responseLower)) then false
      else true
    else if hasPoorSemanticCoherence cfg response then true
    else if semanticTriggers then true
    else if !(question.isEmpty || (pyStrip question).isEmpty)
        && !(isResponseRelevant cfg question response) then true
    else false

/-- C6 counterexample.  A response containing `"i don't know"` mid-text
(not at the start) makes step 4 return false immediately: the coherence
check never runs, so this incoherent response (an immediate triple
repetition) is NOT marked for fallback, for any semantic-scorer verdict
represented here by the `false` oracle. -/
theorem midtext_dont_know_skips_quality_checks :
    hasSub "i don't know".data
      (pyLower ("Honestly honestly honestly I do not have a clue " ++
        "since i don't know anything here.").data) = true
    ∧ dontKnowPatterns.any (fun p => pyStartsWith p
        (pyLower ("Honestly honestly honestly I do not have a clue " ++
          "since i don't know anything here.").data)) = false
    ∧ hasPoorSemanticCoherence defaultConfig
        ("Honestly honestly honestly I do not have a clue " ++
          "since i don't know anything here.").data = true
    ∧ isFallbackResponse defaultConfig false
        ("Honestly honestly honestly I do not have a clue " ++
          "since i don't know anything here.").data
        "how does this work".data = false := by
  refine ⟨by decide, by decide, by decide, by decide⟩

/-- C6 amended.  When a don't-know phrase occurs in the response but no
such phrase is at the very start, step 4 decides the verdict itself: the
predicate returns false (response deemed adequate) without consulting the
coherence, semantic, or relevance checks — for every configuration and
every semantic-scorer verdict. -/
theorem dont_know_not_at_start_decides_false (cfg : Config) (semanticTriggers : Bool)
    (response question : List Char)
    (hresp : response ≠ [])
    (hq : pyStrip question ≠ [])
    (herr : ([llmUnavailableMsg, noResponseMsg, tooComplexMsg].any
        (fun e => hasSub e response)) = false)
    (hlen : ¬ (pyStrip response).length < cfg.fallbackMinResponseLength)
    (hpat : dontKnowPatterns.any (fun p => hasSub p (pyLower response)) = true)
    (hstart : dontKnowPatterns.any (fun p => pyStartsWith p (pyLower response)) = false) :
    isFallbackResponse cfg semanticTriggers response question = false := by
  have h1 : response.isEmpty = false := by simpa [List.isEmpty_iff] using hresp
  have h2 : (pyStrip question).isEmpty = false := by simpa [List.isEmpty_iff] using hq
  have h3 : question.isEmpty = false := by
    cases h : question.isEmpty
    · rfl
    · rw [List.isEmpty_iff] at h
      subst h
      exact absurd rfl hq
  rw [isFallbackResponse]
  simp [h1, h2, h3, herr, hpat, hstart, hlen]

/-- Witness for C6 amended: a polite mid-sentence `"i'm not sure"` is
treated as contextual and the predicate accepts the response. -/
theorem dont_know_not_at_start_decides_false_witness :
    isFallbackResponse defaultConfig true
      ("That is helpful but i'm not sure about the rest of it honestly my friend.").data
      "can you summarize that".data = false :=
  dont_know_not_at_start_decides_false defaultConfig true
    ("That is helpful but i'm not sure about the rest of it honestly my friend.").data
    "can you summarize that".data
    (by decide) (by decide) (by decide) (by decide) (by decide) (by decide)

/-! ## `_ask_openai` and `_ask_fallback` — provider orchestration

The two provider clients, the presence of the rate limiter and the raw
outcome of each network attempt (`_make_llm_request`) are external; they
are supplied in `ProviderEnv`.  `openaiAttempts` lists, in order, the
value each call to `_make_llm_request('openai', ...)` would return
(`none` = empty response, triggering a retry); the loop makes at most 2
attempts.  `localAnswer` is the text `_ask_local` returns (it always
returns a string; the empty string models a falsy result).  The quota
store is threaded explicitly; `record_request` is `incrementUsage`.
-/

structure ProviderEnv where
  localClient : Bool
  openaiClient : Bool
  limiterPresent : Bool
  dailyLimit : Int
  today : List Char
  openaiAttempts : List (Option (List Char))
  localAnswer : List Char
  semanticTriggers : Bool

/-- The recording step of `_ask_openai`: `record_request()` runs only
when a limiter exists and the result does not start with `"❌"` or
`"Error"`. -/
def recordIfSuccess (env : ProviderEnv) (store : QuotaStore) (result : List Char) : QuotaStore :=
  if env.limiterPresent && !(pyStartsWith "❌".data result)
      && !(pyStartsWith "Error".data result)
  then incrementUsage store env.today
  else store

/-- The attempt loop of `_ask_openai`: skip empty results (retry), return
the first non-empty result after the recording step, and fall through to
`no_response` when every attempt was empty. -/
def askOpenaiLoop (env : ProviderEnv) :
    List (Option (List Char)) → QuotaStore → List Char × QuotaStore
  | [], store => (noResponseMsg, store)
  | none :: rest, store => askOpenaiLoop env rest store
  | some result :: _, store => (result, recordIfSuccess env store result)

/-- `_ask_openai`: unavailable client and exhausted daily quota short
circuit to their error constants; otherwise at most 2 attempts. -/
def askOpenai (env : ProviderEnv) (store : QuotaStore) : List Char × QuotaStore :=
  if !env.openaiClient then (llmUnavailableMsg, store)
  else if env.limiterPresent && !(canMakeRequest env.dailyLimit store env.today) then
    (openaiLimitMsg, store)
  else askOpenaiLoop env (env.openaiAttempts.take 2) store

/-- `_ask_fallback`: try local first; if the local result is falsy or
flagged by the fallback predicate, use OpenAI when its client exists;
otherwise return whatever local produced, or `llm_unavailable` when no
client exists at all. -/
def askFallback (env : ProviderEnv) (cfg : Config) (question : List Char)
    (store : QuotaStore) : List Char × QuotaStore :=
  if env.localClient then
    if !env.localAnswer.isEmpty
        && !(isFallbackResponse cfg env.semanticTriggers env.localAnswer question) then
      (env.localAnswer, store)
    else if env.openaiClient then askOpenai env store
    else (env.localAnswer, store)
  else if env.openaiClient then askOpenai env store
  else (llmUnavailableMsg, store)

/-- C1 counterexample.  In fallback mode the local provider produces the
(flagged, too-short) text `"hi"`; the remote client exists but its daily
quota is exhausted, and `_ask_fallback` surfaces the hard error constant
`openai_limit_reached` instead of any provider-produced text. -/
theorem fallback_surfaces_limit_error_despite_local_text :
    ("hi".data : List Char) ≠ []
    ∧ isFallbackResponse defaultConfig false "hi".data
        "how do i sort a list in python".data = true
    ∧ (askFallback
        { localClient := true, openaiClient := true, limiterPresent := true,
          dailyLimit := 1, today := "2026-10-12".data, openaiAttempts := [],
          localAnswer := "hi".data, semanticTriggers := false }
        defaultConfig "how do i sort a list in python".data
        [("2026-10-12".data, 1)]).1 = openaiLimitMsg := by
  refine ⟨by decide, by decide, by decide⟩

/-- C1 amended.  Whenever the local client produced any text, the
fallback engine returns it when NO remote client exists (even if
flagged); when a remote client exists and the local text is flagged, the
result is exactly whatever `_ask_openai` returns — which may be the
`openai_limit_reached` or `no_response` error constants. -/
theorem fallback_local_text_behavior (env : ProviderEnv) (cfg : Config)
    (question : List Char) (store : QuotaStore)
    (hlocal : env.localClient = true) (hanswer : env.localAnswer ≠ []) :
    (env.openaiClient = false →
      (askFallback env cfg question store).1 = env.localAnswer)
    ∧ (env.openaiClient = true →
        isFallbackResponse cfg env.semanticTriggers env.localAnswer question = true →
        askFallback env cfg question store = askOpenai env store) := by
  have h1 : env.localAnswer.isEmpty = false := by simpa [List.isEmpty_iff] using hanswer
  constructor
  · intro hoc
    rw [askFallback]
    simp only [hlocal, if_true]
    split
    · rfl
    · simp [hoc]
  · intro hoc hflag
    rw [askFallback]
    simp [hlocal, hoc, hflag, h1]

/-- Witness for C1 amended: local-only environment returning a flagged
short text, and a both-provider environment falling through to
`_ask_openai`. -/
theorem fallback_local_text_behavior_witness :
    ((false : Bool) = false →
      (askFallback
        { localClient := true, openaiClient := false, limiterPresent := false,
          dailyLimit := 0, today := "2026-10-12".data, openaiAttempts := [],
          localAnswer := "ok".data, semanticTriggers := false }
        defaultConfig "what time is it".data []).1 = "ok".data)
    ∧ ((false : Bool) = true →
        isFallbackResponse defaultConfig false "ok".data "what time is it".data = true →
        askFallback
          { localClient := true, openaiClient := false, limiterPresent := false,
            dailyLimit := 0, today := "2026-10-12".data, openaiAttempts := [],
            localAnswer := "ok".data, semanticTriggers := false }
          defaultConfig "what time is it".data []
        = askOpenai
          { localClient := true, openaiClient := false, limiterPresent := false,
            dailyLimit := 0, today := "2026-10-12".data, openaiAttempts := [],
            localAnswer := "ok".data, semanticTriggers := false } []) :=
  fallback_local_text_behavior
    { localClient := true, openaiClient := false, limiterPresent := false,
      dailyLimit := 0, today := "2026-10-12".data, openaiAttempts := [],
      localAnswer := "ok".data, semanticTriggers := false }
    defaultConfig "what time is it".data [] (by decide) (by decide)

/-- C8.  The recording guard only checks the prefixes `"❌"` and
`"Error"`, so a remote request whose outcome is the fixed error message
`too_complex` (`"That's too complicated to answer here"`, produced when
validation rejects the remote answer) still calls `record_request()`:
the persisted daily count for today increases from 2 to 3. -/
theorem record_request_runs_on_error_result :
    (askOpenai
      { localClient := false, openaiClient := true, limiterPresent := true,
        dailyLimit := 10, today := "2026-10-12".data,
        openaiAttempts := [some tooComplexMsg], localAnswer := [],
        semanticTriggers := false }
      [("2026-10-12".data, 2)]).1 = tooComplexMsg
    ∧ getTodayUsage
        (askOpenai
          { localClient := false, openaiClient := true, limiterPresent := true,
            dailyLimit := 10, today := "2026-10-12".data,
            openaiAttempts := [some tooComplexMsg], localAnswer := [],
            semanticTriggers := false }
          [("2026-10-12".data, 2)]).2 "2026-10-12".data = 3 := by
  refine ⟨by decide, by decide⟩

/-- C3. Cleaning is NOT idempotent.  On the raw response
`"<th</thinkx>ink>hello"` the artifact-removal step deletes `"</thinkx>"`
and splices the surrounding text into a fresh `"<think>"` marker, so the
first cleaning pass yields `"<think>hello"`; a second pass then truncates
at that marker and yields the empty string.  This contradicts both the
claimed idempotence and the code's own stated intent of removing all
think-markup. -/
theorem cleaning_not_idempotent_on_spliced_marker :
    cleanResponse "<th</thinkx>ink>hello".data = "<think>hello".data
    ∧ cleanResponse (cleanResponse "<th</thinkx>ink>hello".data) = []
    ∧ cleanResponse (cleanResponse "<th</thinkx>ink>hello".data)
        ≠ cleanResponse "<th</thinkx>ink>hello".data := by
  refine ⟨by decide, by decide, by decide⟩

/-- C4. The sentinel-free output invariant fails.  On the raw response
`"<th</thinka>ink>world"` the artifact-removal step deletes `"</thinka>"`
and splices the surrounding text into `"<think>world"`, which the
validator then accepts verbatim: the cleaned text — and the accepted
verdict — contains the open sentinel `"<think>"`. -/
theorem accepted_text_can_contain_sentinel :
    hasSub openTag (cleanResponse "<th</thinka>ink>world".data) = true
    ∧ validateResponseLength "<th</thinka>ink>world".data true
        = cleanResponse "<th</thinka>ink>world".data
    ∧ hasSub openTag (validateResponseLength "<th</thinka>ink>world".data true) = true := by
  refine ⟨by decide, by decide, by decide⟩

/-- C5. Strict acceptance postcondition: a response whose cleaned text is
non-empty, has at most 3 sentence terminators (periods immediately
preceded by a digit not counted), is at most 400 characters long and
fires no strict complexity indicator is returned unchanged by strict
validation. -/
theorem strict_validation_accepts_short_responses (r : List Char)
    (hne : cleanResponse r ≠ [])
    (hsent : countSentenceEndings (cleanResponse r) ≤ 3)
    (hlen : (cleanResponse r).length ≤ 400)
    (hcomplex : strictComplexityIndicator (cleanResponse r) = false) :
    validateResponseLength r true = cleanResponse r := by
  have h1 : (cleanResponse r).isEmpty = false := by
    simpa [List.isEmpty_iff] using hne
  rw [validateResponseLength]
  simp only [h1, Bool.false_eq_true, if_false, if_true]
  have h2 : (decide (countSentenceEndings (cleanResponse r) > 3)
      || decide ((cleanResponse r).length > 400)) = false := by
    simp only [Bool.or_eq_false_iff, decide_eq_false_iff_not, not_lt]
    exact ⟨hsent, hlen⟩
  simp [h2, hcomplex]

/-- Witness for C5: the numbered list `"1. First. 2. Second. 3. Third."`
passes strict validation unchanged, because list-item periods are not
counted as sentence endings. -/
theorem strict_validation_accepts_short_responses_witness :
    validateResponseLength "1. First. 2. Second. 3. Third.".data true
      = "1. First. 2. Second. 3. Third.".data :=
  (strict_validation_accepts_short_responses "1. First. 2. Second. 3. Third.".data
    (by decide) (by decide) (by decide) (by decide)).trans (by decide)

/-- C2. Daily quota arithmetic: with configured daily limit `L` and `N`
calls recorded under today's date, if `L > 0` then `can_make_request()`
returns true iff `N < L`; if `L ≤ 0` it always returns true (unlimited);
and after one more `record_request()` the reported remaining count equals
`max 0 (L - (N + 1))`. -/
theorem quota_daily_arithmetic (L : Int) (store : QuotaStore) (today : List Char) (N : Nat)
    (hN : getTodayUsage store today = N) :
    (0 < L → (canMakeRequest L store today = true ↔ (N : Int) < L))
    ∧ (L ≤ 0 → canMakeRequest L store today = true)
    ∧ (0 < L → usageRemaining L (incrementUsage store today) today
        = some (max 0 (L - ((N : Int) + 1)))) := by
  refine ⟨fun hL => ?_, fun hL => ?_, fun hL => ?_⟩
  · rw [canMakeRequest, if_neg (not_le.mpr hL), hN, decide_eq_true_iff]
  · rw [canMakeRequest, if_pos hL]
  · rw [usageRemaining, if_pos hL, getTodayUsage_incrementUsage, hN]
    push_cast
    ring_nf

/-- Witness for C2 at limit 3 with one call already recorded today. -/
theorem quota_daily_arithmetic_witness :
    (0 < (3 : Int) → (canMakeRequest 3 [("2026-10-12".data, 1)] "2026-10-12".data = true
        ↔ ((1 : Nat) : Int) < 3))
    ∧ ((3 : Int) ≤ 0 → canMakeRequest 3 [("2026-10-12".data, 1)] "2026-10-12".data = true)
    ∧ (0 < (3 : Int) → usageRemaining 3
        (incrementUsage [("2026-10-12".data, 1)] "2026-10-12".data) "2026-10-12".data
        = some (max 0 (3 - (((1 : Nat) : Int) + 1)))) :=
  quota_daily_arithmetic 3 [("2026-10-12".data, 1)] "2026-10-12".data 1 (by decide)

end Aircbot
